import Mathlib

/-!
# Verification of the auto-coder orchestration script

Shallow embedding of the repository's Python sources (`ai_coding_system.py`,
`web/app.py`, `cli/cli.py`, `utils/code_quality.py`) and proofs about them.

Python strings are modelled as `List Char` (Python indexes strings by code
point, so a list of unicode scalar values is the faithful representation for
the operations used here: `split`, `replace`, `find`, `rfind`, slicing and
`strip`).  Machine effects that the code only observes through exceptions
(file-system writes, subprocess launches, the hosted LLM API) are passed in as
explicit oracle arguments describing the outcome of each external step, and
the control flow of the Python code is translated over those outcomes.
-/

/-- Python strings, as their sequence of code points. -/
abbrev Str := List Char

/-- The characters stripped by Python's `str.strip()` in the ASCII range:
whitespace (9-13, 32) and the separator control characters (28-31).  All
strings stripped in this codebase are outputs of `sanitize_text`, hence pure
ASCII, so this is exactly `str.isspace` on every character that can occur. -/
def pyIsSpace (c : Char) : Bool :=
  (c.toNat == 32) || (9 ≤ c.toNat && c.toNat ≤ 13) || (28 ≤ c.toNat && c.toNat ≤ 31)

/-- Python `str.strip()`: remove leading and trailing whitespace. -/
def pyStrip (s : Str) : Str :=
  ((s.dropWhile pyIsSpace).reverse.dropWhile pyIsSpace).reverse

/-- All indices `i` of `s` at which the pattern `pat` occurs (occurrences may
overlap; `str.find` picks the least such index and `str.rfind` the largest). -/
def occIdxs (pat s : Str) : List Nat :=
  (List.range s.length).filter (fun i => pat.isPrefixOf (s.drop i))

/-- Python `s.find(pat)`, with `-1` rendered as `none`. -/
def pyFind (pat s : Str) : Option Nat := (occIdxs pat s).head?

/-- Python `s.rfind(pat)`, with `-1` rendered as `none`. -/
def pyRfind (pat s : Str) : Option Nat := (occIdxs pat s).getLast?

/-- Python slice `s[a:b]` for `0 ≤ a ≤ b` (the only form used here). -/
def pySlice (s : Str) (a b : Nat) : Str := (s.drop a).take (b - a)

/-- Worker for `pyReplace`: scan left to right, replacing each non-overlapping
occurrence of the pattern `p :: ps` by `rep` and continuing after it.  The
fuel argument (instantiated with the length of the string) only makes the
recursion structural; each step consumes at least one character, so fuel
`s.length` never runs out. -/
def pyReplaceGo (p : Char) (ps rep : Str) : Nat → Str → Str
  | _, [] => []
  | 0, s => s
  | fuel + 1, c :: cs =>
    if (p :: ps).isPrefixOf (c :: cs) then
      rep ++ pyReplaceGo p ps rep fuel (cs.drop ps.length)
    else
      c :: pyReplaceGo p ps rep fuel cs

/-- Python `s.replace(pat, rep)` (left-to-right, non-overlapping).  The empty
pattern never occurs in this codebase. -/
def pyReplace (pat rep s : Str) : Str :=
  match pat with
  | [] => s
  | p :: ps => pyReplaceGo p ps rep s.length s

/-- Worker for `pySplit`, fuelled like `pyReplaceGo`. -/
def pySplitGo (p : Char) (ps : Str) : Nat → Str → List Str
  | _, [] => [[]]
  | 0, s => [s]
  | fuel + 1, c :: cs =>
    if (p :: ps).isPrefixOf (c :: cs) then
      [] :: pySplitGo p ps fuel (cs.drop ps.length)
    else
      match pySplitGo p ps fuel cs with
      | [] => [[c]]
      | f :: rest => (c :: f) :: rest

/-- Python `s.split(sep)` for a non-empty separator: the fields between the
non-overlapping left-to-right occurrences of `sep`, empty fields included.
Python raises on an empty separator; that case never occurs here. -/
def pySplit (pat s : Str) : List Str :=
  match pat with
  | [] => [s]
  | p :: ps => pySplitGo p ps s.length s

/-- Python `sep.join(parts)`. -/
def pyJoinSep (sep : Str) : List Str → Str
  | [] => []
  | [x] => x
  | x :: xs => x ++ sep ++ pyJoinSep sep xs

/-- `os.path.join(a, b)` as used in this codebase (POSIX, `b` relative). -/
def pyPathJoin (a b : Str) : Str := a ++ '/' :: b

/-- The apostrophe character, `'`. -/
def apos : Char := Char.ofNat 39

/-! ## `sanitize_text` (`ai_coding_system.py`, lines 26-60)

The source spells its `replacements` dict as

```
    replacements = \x7b
        '"': '"',
        '"': '"',
        ''': "'",
        ''': "'",
        '—': '-',
        ...
    \x7d
```

The first two entries are a duplicated key: the plain ASCII double quote
mapped to itself.  On the third line the three consecutive apostrophes open a
*triple-quoted* Python string which runs to the three apostrophes opening the
fourth line, so the third key is the fifteen-character ASCII string
`: "'",\n` followed by eight spaces, mapped to a single apostrophe.  The
parsed dict therefore has six entries, in insertion order: the quote identity
entry, that accidental key, and the four genuine unicode replacements
(em dash, en dash, ellipsis, bullet). -/

/-- The accidental replacement key produced by the triple-quoted-string parse:
`: "'",` then a newline and eight spaces. -/
def sanitizeOddKey : Str :=
  (": \"".toList) ++ apos :: ("\",\n        ".toList)

/-- The `replacements` dict of `sanitize_text`, in iteration order. -/
def sanitizeReplacements : List (Str × Str) :=
  [ (['"'], ['"']),
    (sanitizeOddKey, [apos]),
    (['—'], ['-']),
    (['–'], ['-']),
    (['…'], ['.', '.', '.']),
    (['•'], ['*']) ]

/-- The `for old, new in replacements.items(): text = text.replace(old, new)`
loop of `sanitize_text`. -/
def applyReplacements (s : Str) : Str :=
  sanitizeReplacements.foldl (fun t pr => pyReplace pr.1 pr.2 t) s

/-- `text.encode('ascii', 'replace').decode('ascii')`: every code point at or
above 128 becomes `?`.  With the `'replace'` error handler this encode never
raises. -/
def pyAsciiReplaceEncode (s : Str) : Str :=
  s.map (fun c => if c.toNat < 128 then c else '?')

/-- `sanitize_text` (`ai_coding_system.py`, lines 26-60): the replacement
loop followed by the ASCII round-trip.  The `except:` fallback of the source
is modelled separately as `sanitizeCharwiseFallback`; it is unreachable
because the `'replace'` handler is total. -/
def sanitize_text (s : Str) : Str :=
  pyAsciiReplaceEncode (applyReplacements s)

/-- The character-by-character fallback branch of `sanitize_text` (lines
50-58): keep each ASCII character, replace every other one by `?`. -/
def sanitizeCharwiseFallback (s : Str) : Str :=
  s.foldl (fun acc c => acc ++ [if c.toNat < 128 then c else '?']) []

/-! ## Parsing of the model reply into files
(`generate_code_files`, `ai_coding_system.py` lines 178-238; the loops of
`generate_tests` and `generate_documentation` are textually identical except
for the language tag removed alongside the fences, so the parser takes the
tag as a parameter: three backticks followed by `python` or `markdown`.) -/

/-- The code-fence marker, three backticks. -/
def fenceStr : Str := "```".toList

/-- `file_path = lines[0].strip()` where `lines = section.strip().split("\n")`:
the first line of the stripped section, stripped. -/
def sectionPath (sec : Str) : Str :=
  pyStrip ((pySplit ("\n".toList) (pyStrip sec)).headD [])

/-- The guard `code_start != -1 and code_end != -1 and code_end > code_start`
on `section.find("```")` and `section.rfind("```")`. -/
def hasFencePair (sec : Str) : Bool :=
  match pyFind fenceStr sec, pyRfind fenceStr sec with
  | some a, some b => decide (a < b)
  | _, _ => false

/-- The extracted file content, defined when the fence-pair guard holds:
`section[code_start:code_end].strip()`, then the tag and the bare fence
removed (in that order), then stripped again. -/
def cleanCode (tag sec : Str) : Str :=
  match pyFind fenceStr sec, pyRfind fenceStr sec with
  | some a, some b =>
    pyStrip (pyReplace fenceStr [] (pyReplace tag [] (pyStrip (pySlice sec a b))))
  | _, _ => []

/-- The body of the per-section `if`: the content to write when the guard
holds, nothing otherwise. -/
def extractCode (tag sec : Str) : Option Str :=
  match pyFind fenceStr sec, pyRfind fenceStr sec with
  | some a, some b =>
    if a < b then
      some (pyStrip (pyReplace fenceStr [] (pyReplace tag [] (pyStrip (pySlice sec a b)))))
    else none
  | _, _ => none

/-- The `for section in file_sections[1:]` loop, threading the performed
writes (full path and content, in order) and the `created_files` accumulator
exactly as the source does. -/
def sectionsLoop (tag outDir : Str) :
    List Str → List (Str × Str) → List Str → List (Str × Str) × List Str
  | [], writes, created => (writes, created)
  | sec :: rest, writes, created =>
    match extractCode tag sec with
    | some code =>
      sectionsLoop tag outDir rest
        (writes ++ [(pyPathJoin outDir (sectionPath sec), code)])
        (created ++ [sectionPath sec])
    | none => sectionsLoop tag outDir rest writes created

/-- The reply-processing part shared by `generate_code_files`,
`generate_tests` and `generate_documentation`: sanitize the reply, split it
on `"FILE: "`, drop the text before the first marker, and run the section
loop.  Returns the list of file writes performed and the list of created
relative paths, both in order of appearance. -/
def parseAndWrite (tag outDir reply : Str) : List (Str × Str) × List Str :=
  sectionsLoop tag outDir ((pySplit ("FILE: ".toList) (sanitize_text reply)).tail) [] []

/-! ## `safe_write_file` (`ai_coding_system.py`, lines 7-23)

Whether an `open/write` attempt raises is decided by the runtime environment;
each attempt's outcome is passed in as an oracle value and the `try/except`
control flow of the source is translated over the two outcomes.  The result
is either the list of file writes performed (success) or the message of the
propagated exception. -/

/-- Outcome of one `open(...)/f.write(...)` attempt. -/
inductive WriteOutcome where
  | success
  | unicodeEncodeError (msg : Str)
  | otherError (msg : Str)
deriving DecidableEq

/-- `f"Failed to write file {file_path}: {str(e)}"`. -/
def failMsg (filePath m : Str) : Str :=
  ("Failed to write file ".toList) ++ filePath ++ (": ".toList) ++ m

/-- `safe_write_file(file_path, content)`: try the UTF-8 write; on
`UnicodeEncodeError` retry with `sanitize_text(content)` written with
`encoding="ascii", errors="replace"`; wrap any other failure of either
attempt in an `Exception` starting with `"Failed to write file "`. -/
def safe_write_file (utf8Outcome asciiOutcome : WriteOutcome) (filePath content : Str) :
    Except Str (List (Str × Str)) :=
  match utf8Outcome with
  | .success => .ok [(filePath, content)]
  | .unicodeEncodeError _ =>
    match asciiOutcome with
    | .success => .ok [(filePath, pyAsciiReplaceEncode (sanitize_text content))]
    | .unicodeEncodeError m => .error (failMsg filePath m)
    | .otherError m => .error (failMsg filePath m)
  | .otherError m => .error (failMsg filePath m)

/-! ## The five-phase run (`ai_coding_system.py`, lines 78-444)

The hosted LLM is an oracle from the message list sent to `llm.invoke` to
either a reply (`response.content`) or a raised exception's message.  The run
threads a state holding the files written so far and the log of completed
invocations.  Directory creation has no observable effect in this model, and
file writes are modelled as succeeding (their failure modes are the subject
of `safe_write_file`). -/

/-- A `langchain` chat message. -/
inductive Msg where
  | sys (content : Str)
  | human (content : Str)
deriving DecidableEq

/-- One completed `llm.invoke` call: the phase it belongs to, the messages
sent, and the reply received. -/
structure InvCall where
  tag : String
  msgs : List Msg
  reply : Str
deriving DecidableEq

/-- State threaded through the run: the files written (most recent first)
and the completed invocations in order. -/
structure RunState where
  fs : List (Str × Str)
  trace : List InvCall
deriving DecidableEq

/-- The LLM oracle: reply or raised-exception message for each request. -/
abbrev LLM := List Msg → Except Str Str

/-- An oracle that never raises. -/
def okLLM (f : List Msg → Str) : LLM := fun msgs => .ok (f msgs)

/-- `llm.invoke(...)`: on success the invocation is appended to the trace. -/
def invokeLLM (llm : LLM) (tag : String) (msgs : List Msg) (st : RunState) :
    RunState × Except Str Str :=
  match llm msgs with
  | .error e => (st, .error e)
  | .ok reply => ({ st with trace := st.trace ++ [⟨tag, msgs, reply⟩] }, .ok reply)

/-- A successful `safe_write_file`: record the file, newest first. -/
def fsWrite (st : RunState) (p c : Str) : RunState :=
  { st with fs := (p, c) :: st.fs }

/-- Perform a list of writes in order. -/
def applyWrites (st : RunState) (ws : List (Str × Str)) : RunState :=
  ws.foldl (fun s w => fsWrite s w.1 w.2) st

/-- Look up a file's current content. -/
def fsRead (st : RunState) (p : Str) : Option Str :=
  (st.fs.find? (fun kv => kv.1 == p)).map (·.2)

/-- System prompt of the requirements phase (lines 113-123). -/
def reqSystemPrompt : Str :=
  ("\n    You are a requirements analyst. Your task is to create a detailed requirements document for the following project.\n    Make sure to cover:\n    1. Functional requirements\n    2. Non-functional requirements\n    3. User stories\n    4. Technical constraints\n    \n    Format your response as Markdown.\n    Use only ASCII characters in your response - no special quotes, dashes, or unicode symbols.\n    ".toList)

/-- System prompt of the architecture phase (lines 146-157). -/
def archSystemPrompt : Str :=
  ("\n    You are a software architect. Based on the following requirements, create a detailed architecture design document.\n    Include:\n    1. High-level architecture\n    2. Component diagram\n    3. Data models\n    4. API definitions (if applicable)\n    5. File structure\n    \n    Format your response as Markdown.\n    Use only ASCII characters in your response - no special quotes, dashes, or unicode symbols.\n    ".toList)

/-- System prompt of the code phase (lines 180-199); the apostrophe of
`you'll` is spliced in as `apos`. -/
def codeSystemPrompt : Str :=
  ("\n    You are a software developer. Based on the provided requirements and architecture, implement the necessary code files.\n    First, list all the files you".toList)
  ++ apos :: ("ll create with their paths.\n    Then, for each file, provide the complete content.\n    \n    Format your response with clear separators between files, for example:\n    \n    FILE: src/main.py\n    ```python\n    # Code content here\n    ```\n    \n    FILE: src/utils.py\n    ```python\n    # Code content here\n    ```\n    \n    Make sure each file is complete and functional.\n    Use only ASCII characters in your code - no special quotes, dashes, or unicode symbols.\n    ".toList)

/-- System prompt of the tests phase (lines 260-278). -/
def testsSystemPrompt : Str :=
  ("\n    You are a software tester. Based on the requirements and code implementation, create appropriate test files.\n    Make sure to test all critical functionality.\n    \n    Format your response with clear separators between files, for example:\n    \n    FILE: tests/test_main.py\n    ```python\n    # Test code here\n    ```\n    \n    FILE: tests/test_utils.py\n    ```python\n    # Test code here\n    ```\n    \n    Make sure each test file is complete and follows testing best practices.\n    Use only ASCII characters in your code - no special quotes, dashes, or unicode symbols.\n    ".toList)

/-- System prompt of the documentation phase (lines 323-353). -/
def docsSystemPrompt : Str :=
  ("\n    You are a technical writer. Create comprehensive documentation for the project.\n    Create a README.md file for the project root, and any additional documentation needed.\n    \n    For the README.md, include:\n    1. Project name and description\n    2. Installation instructions\n    3. Usage examples\n    4. Features\n    5. Dependencies\n    6. Configuration\n    \n    Format your response with clear separators between files, for example:\n    \n    FILE: README.md\n    ```markdown\n    # Project Name\n    \n    Description...\n    ```\n    \n    FILE: docs/usage_guide.md\n    ```markdown\n    # Usage Guide\n    \n    Details...\n    ```\n    \n    Make sure documentation is clear, concise, and helpful for users.\n    Use only ASCII characters in your documentation - no special quotes, dashes, or unicode symbols.\n    ".toList)

/-- Messages sent by the requirements phase. -/
def reqMsgsOf (prompt : Str) : List Msg :=
  [.sys reqSystemPrompt, .human prompt]

/-- Messages sent by the architecture phase:
`f"Requirements:\n\n{requirements}"`. -/
def archMsgsOf (requirements : Str) : List Msg :=
  [.sys archSystemPrompt, .human (("Requirements:\n\n".toList) ++ requirements)]

/-- Messages sent by the code phase:
`f"Requirements:\n\n{requirements}\n\nArchitecture:\n\n{architecture}"`. -/
def codeMsgsOf (requirements architecture : Str) : List Msg :=
  [.sys codeSystemPrompt,
   .human (("Requirements:\n\n".toList) ++ requirements
     ++ ("\n\nArchitecture:\n\n".toList) ++ architecture)]

/-- Messages sent by the tests phase:
`f"Requirements:\n\n{requirements}\n\nImplementation:\n\n{files_content_str}"`. -/
def testsMsgsOf (requirements filesContentStr : Str) : List Msg :=
  [.sys testsSystemPrompt,
   .human (("Requirements:\n\n".toList) ++ requirements
     ++ ("\n\nImplementation:\n\n".toList) ++ filesContentStr)]

/-- Messages sent by the documentation phase: `f"Requirements:\n\n
{requirements}\n\nArchitecture:\n\n{architecture}\n\nProject files:\n
{files_summary}"`. -/
def docsMsgsOf (requirements architecture filesSummary : Str) : List Msg :=
  [.sys docsSystemPrompt,
   .human (("Requirements:\n\n".toList) ++ requirements
     ++ ("\n\nArchitecture:\n\n".toList) ++ architecture
     ++ ("\n\nProject files:\n".toList) ++ filesSummary)]

/-- `os.path.join(os.path.join(output_dir, "docs"), "requirements.md")`. -/
def reqFilePath (outputDir : Str) : Str :=
  pyPathJoin (pyPathJoin outputDir ("docs".toList)) ("requirements.md".toList)

/-- `os.path.join(os.path.join(output_dir, "docs"), "architecture.md")`. -/
def archFilePath (outputDir : Str) : Str :=
  pyPathJoin (pyPathJoin outputDir ("docs".toList)) ("architecture.md".toList)

/-- `generate_requirements_document` (lines 111-142). -/
def generate_requirements_document (llm : LLM) (prompt outputDir : Str) (st : RunState) :
    RunState × Except Str Str :=
  match invokeLLM llm "requirements" (reqMsgsOf prompt) st with
  | (st1, .error e) => (st1, .error e)
  | (st1, .ok reply) =>
    let content := sanitize_text reply
    (fsWrite st1 (reqFilePath outputDir) content, .ok content)

/-- `generate_architecture_design` (lines 144-176). -/
def generate_architecture_design (llm : LLM) (requirements outputDir : Str) (st : RunState) :
    RunState × Except Str Str :=
  match invokeLLM llm "architecture" (archMsgsOf requirements) st with
  | (st1, .error e) => (st1, .error e)
  | (st1, .ok reply) =>
    let content := sanitize_text reply
    (fsWrite st1 (archFilePath outputDir) content, .ok content)

/-- `generate_code_files` (lines 178-238): invoke the model and run the
section parser over the reply, performing each write. -/
def generate_code_files (llm : LLM) (requirements architecture outputDir : Str)
    (st : RunState) : RunState × Except Str (List Str) :=
  match invokeLLM llm "code" (codeMsgsOf requirements architecture) st with
  | (st1, .error e) => (st1, .error e)
  | (st1, .ok reply) =>
    let pw := parseAndWrite ("```python".toList) outputDir reply
    (applyWrites st1 pw.1, .ok pw.2)

/-- The `files_content` dict of `generate_tests` (lines 242-256): a Python
dict keyed by relative path, insertion-ordered, updated in place on a
repeated key; unreadable files are skipped. -/
def dictUpsert (d : List (Str × Str)) (k v : Str) : List (Str × Str) :=
  if d.any (fun kv => kv.1 == k) then
    d.map (fun kv => if kv.1 == k then (k, v) else kv)
  else d ++ [(k, v)]

/-- Read each created file back from the file system, building the
`files_content` dict. -/
def collectFiles (st : RunState) (outputDir : Str) (created : List Str) :
    List (Str × Str) :=
  created.foldl
    (fun d p =>
      match fsRead st (pyPathJoin outputDir p) with
      | some c => dictUpsert d p c
      | none => d)
    []

/-- `files_content_str` (line 258):
`"\n\n".join(f"FILE: {path}\n```python\n{content}\n```" ...)`. -/
def filesContentStrOf (st : RunState) (outputDir : Str) (created : List Str) : Str :=
  pyJoinSep ("\n\n".toList)
    ((collectFiles st outputDir created).map
      (fun kv => ("FILE: ".toList) ++ kv.1 ++ ("\n```python\n".toList) ++ kv.2
        ++ ("\n```".toList)))

/-- `generate_tests` (lines 240-317). -/
def generate_tests (llm : LLM) (requirements : Str) (createdFiles : List Str)
    (outputDir : Str) (st : RunState) : RunState × Except Str (List Str) :=
  match invokeLLM llm "tests"
      (testsMsgsOf requirements (filesContentStrOf st outputDir createdFiles)) st with
  | (st1, .error e) => (st1, .error e)
  | (st1, .ok reply) =>
    let pw := parseAndWrite ("```python".toList) outputDir reply
    (applyWrites st1 pw.1, .ok pw.2)

/-- `generate_documentation` (lines 319-392): like the code and tests phases
but with `files_summary = "\n".join(created_files)` in the request and the
`markdown` tag removed from the extracted content. -/
def generate_documentation (llm : LLM) (requirements architecture : Str)
    (createdFiles : List Str) (outputDir : Str) (st : RunState) :
    RunState × Except Str (List Str) :=
  match invokeLLM llm "docs"
      (docsMsgsOf requirements architecture (pyJoinSep ("\n".toList) createdFiles)) st with
  | (st1, .error e) => (st1, .error e)
  | (st1, .ok reply) =>
    let pw := parseAndWrite ("```markdown".toList) outputDir reply
    (applyWrites st1 pw.1, .ok pw.2)

/-- `run_simplified_coding_system` (lines 394-433): `create_coding_agent`
raises `ValueError` when `GROQ_API_KEY` is unset; otherwise the five phases
run in order, stopping at the first raised exception.  The surrounding
`try/except Exception` turns any failure into `False` and completion into
`True`; every failure the body can raise is an `Exception` subclass. -/
def run_simplified_coding_system (apiKey : Option Str) (llm : LLM)
    (prompt outputDir : Str) : Bool × RunState :=
  match apiKey with
  | none => (false, ⟨[], []⟩)
  | some _ =>
    match generate_requirements_document llm prompt outputDir ⟨[], []⟩ with
    | (st1, .error _) => (false, st1)
    | (st1, .ok requirements) =>
      match generate_architecture_design llm requirements outputDir st1 with
      | (st2, .error _) => (false, st2)
      | (st2, .ok architecture) =>
        match generate_code_files llm requirements architecture outputDir st2 with
        | (st3, .error _) => (false, st3)
        | (st3, .ok createdFiles) =>
          match generate_tests llm requirements createdFiles outputDir st3 with
          | (st4, .error _) => (false, st4)
          | (st4, .ok _) =>
            match generate_documentation llm requirements architecture createdFiles
                outputDir st4 with
            | (st5, .error _) => (false, st5)
            | (st5, .ok _) => (true, st5)

/-- The tail of `cli.py`'s `main` (lines 156-172) and its `__main__` wrapper:
the run's boolean is mapped to process exit code `0` on `True`, `1`
otherwise. -/
def cliExitCode (success : Bool) : Nat := if success then 0 else 1

/-! ## The phase pipeline, decomposed by data dependency

For a never-raising oracle `f`, each phase's request and reply are functions
of the initial prompt, the output directory, and the replies of strictly
earlier phases only.  The run is proved equal to this decomposition. -/

/-- Reply of phase 1, a function of the prompt alone. -/
def c2r1 (f : List Msg → Str) (prompt : Str) : Str := f (reqMsgsOf prompt)

/-- The requirements text returned by phase 1 (the sanitized reply). -/
def c2q1 (f : List Msg → Str) (prompt : Str) : Str := sanitize_text (c2r1 f prompt)

/-- Messages of phase 2: built from the phase-1 output only. -/
def c2m2 (f : List Msg → Str) (prompt : Str) : List Msg := archMsgsOf (c2q1 f prompt)

/-- Reply of phase 2. -/
def c2r2 (f : List Msg → Str) (prompt : Str) : Str := f (c2m2 f prompt)

/-- The architecture text returned by phase 2. -/
def c2q2 (f : List Msg → Str) (prompt : Str) : Str := sanitize_text (c2r2 f prompt)

/-- Messages of phase 3: built from the phase-1 and phase-2 outputs. -/
def c2m3 (f : List Msg → Str) (prompt : Str) : List Msg :=
  codeMsgsOf (c2q1 f prompt) (c2q2 f prompt)

/-- Reply of phase 3. -/
def c2r3 (f : List Msg → Str) (prompt : Str) : Str := f (c2m3 f prompt)

/-- The `created_files` list of phase 3. -/
def c2created (f : List Msg → Str) (prompt outputDir : Str) : List Str :=
  (parseAndWrite ("```python".toList) outputDir (c2r3 f prompt)).2

/-- The run state after the first three phases. -/
def c2st3 (f : List Msg → Str) (prompt outputDir : Str) : RunState :=
  applyWrites
    ⟨[(archFilePath outputDir, c2q2 f prompt), (reqFilePath outputDir, c2q1 f prompt)],
     [⟨"requirements", reqMsgsOf prompt, c2r1 f prompt⟩,
      ⟨"architecture", c2m2 f prompt, c2r2 f prompt⟩,
      ⟨"code", c2m3 f prompt, c2r3 f prompt⟩]⟩
    (parseAndWrite ("```python".toList) outputDir (c2r3 f prompt)).1

/-- Messages of phase 4: built from the phase-1 output and the files the
phase-3 reply produced (read back from the file system). -/
def c2m4 (f : List Msg → Str) (prompt outputDir : Str) : List Msg :=
  testsMsgsOf (c2q1 f prompt)
    (filesContentStrOf (c2st3 f prompt outputDir) outputDir (c2created f prompt outputDir))

/-- Reply of phase 4. -/
def c2r4 (f : List Msg → Str) (prompt outputDir : Str) : Str := f (c2m4 f prompt outputDir)

/-- Messages of phase 5: built from the phase-1, phase-2 and phase-3
outputs (the phase-4 reply does not occur). -/
def c2m5 (f : List Msg → Str) (prompt outputDir : Str) : List Msg :=
  docsMsgsOf (c2q1 f prompt) (c2q2 f prompt)
    (pyJoinSep ("\n".toList) (c2created f prompt outputDir))

/-- Reply of phase 5. -/
def c2r5 (f : List Msg → Str) (prompt outputDir : Str) : Str := f (c2m5 f prompt outputDir)

/-! ## The web app's progress monitor (`web/app.py`, lines 131-188)

`progress_monitor` polls `st.session_state.current_phase` twice a second and
rewrites `st.session_state.progress` from the phase name alone; one polling
step is the function below.  The generation thread itself only ever assigns
`"starting"` (line 136) and `"complete"` (line 182) to `current_phase`, and
sets `progress` to `0` (line 135) and directly to `100` (line 181). -/

/-- The monitor's six-entry phase list (lines 143-150). -/
def monitorPhases : List String :=
  ["requirements_gathering", "architecture_design", "implementation",
   "testing", "documentation", "review_and_finalization"]

/-- One polling step (lines 153-157): when the current phase is in the list,
`progress = int((phases.index(phase) / len(phases)) * 100)`, otherwise the
stored value is untouched.  For every index `i < 6`, `int((i / 6) * 100)`
computed with IEEE doubles equals the integer `i * 100 / 6` (checked value by
value: 0, 16, 33, 50, 66, 83), so natural division renders the float
expression exactly. -/
def progressMonitorStep (currentPhase : String) (progress : Nat) : Nat :=
  if monitorPhases.contains currentPhase then
    monitorPhases.indexOf currentPhase * 100 / 6
  else progress

/-- The two values `create_project_in_thread` assigns to `current_phase`. -/
def generationThreadPhases : List String := ["starting", "complete"]

/-! ## Module-level names (`ai_coding_system.py` vs. its importers)

`from X import Y` succeeds exactly when `Y` is an attribute of module `X`;
for `ai_coding_system` those attributes are its module-level definitions and
the names its own imports bind.  `web/app.py` line 15 does
`from ai_coding_system import run_coding_system`; `cli/cli.py` line 15 does
`from ai_coding_system import run_simplified_coding_system`. -/

/-- Every module-level name `ai_coding_system.py` binds: its ten function
definitions and the names bound by its imports (lines 62-76). -/
def aiCodingSystemModuleNames : List String :=
  ["safe_write_file", "sanitize_text", "create_coding_agent",
   "create_project_structure", "generate_requirements_document",
   "generate_architecture_design", "generate_code_files", "generate_tests",
   "generate_documentation", "run_simplified_coding_system",
   "os", "sys", "json", "tempfile", "shutil", "Path",
   "Dict", "Any", "List", "Optional",
   "HumanMessage", "SystemMessage", "ChatGroq", "load_dotenv"]

/-- The name `web/app.py` imports from `ai_coding_system` (line 15). -/
def webAppCodingSystemImport : String := "run_coding_system"

/-- The name `cli/cli.py` imports from `ai_coding_system` (line 15). -/
def cliCodingSystemImport : String := "run_simplified_coding_system"

/-! ## Static-analysis wrappers (`utils/code_quality.py`)

Each wrapper is modelled with the oracle outcome of its external step and an
effect log recording how the underlying tool was reached: a `subprocess.run`
launch with its argv, or an in-process library call. -/

/-- How a wrapper reaches its tool. -/
inductive ToolEffect where
  | subprocessRun (argv : List Str)
  | libraryCall (fn : String)
deriving DecidableEq

/-- Whether an effect is a subprocess launch. -/
def isSubprocessEffect : ToolEffect → Bool
  | .subprocessRun _ => true
  | .libraryCall _ => false

/-- Outcome of a `subprocess.run([...], capture_output=True, text=True,
check=False)` call: a completed process, `FileNotFoundError` (binary not on
`PATH`), or some other raised exception. -/
inductive SubprocResult where
  | completed (returncode : Int) (stdout stderr : Str)
  | fileNotFound
  | raised (msg : Str)
deriving DecidableEq

/-- `format_python_code` (lines 26-46): call `black.format_str` in process;
on any exception print and return the input unchanged.  The oracle maps the
line length and code to Black's outcome. -/
def format_python_code (blackOracle : Nat → Str → Except Str Str)
    (code : Str) (lineLength : Nat) : Str × List ToolEffect :=
  match blackOracle lineLength code with
  | .ok formatted => (formatted, [.libraryCall ("black.format_str")])
  | .error _ => (code, [.libraryCall ("black.format_str")])

/-- `run_pylint` (lines 105-138): when the `pylint` import failed at module
load, return `("Pylint not available", 0.0)` without touching the tool;
otherwise call `pylint.lint.Run` in process with a text reporter.  The score
regex and `float()` parse of the success path are abstracted as `scoreOf`. -/
def run_pylint (pylintAvailable : Bool) (pylintOracle : Str → Except Str Str)
    (scoreOf : Str → Rat) (filePath : Str) : (Str × Rat) × List ToolEffect :=
  if pylintAvailable then
    match pylintOracle filePath with
    | .ok report => ((report, scoreOf report), [.libraryCall ("pylint.lint.Run")])
    | .error e =>
      ((("Error running Pylint: ".toList) ++ e, 0), [.libraryCall ("pylint.lint.Run")])
  else
    (("Pylint not available".toList, 0), [])

/-- The argv of the pycodestyle subprocess (line 348). -/
def pep8Argv (filePath : Str) : List Str := ["pycodestyle".toList, filePath]

/-- `check_pep8_compliance` (lines 333-362): run pycodestyle as a
subprocess; return code 0 means compliant, otherwise the non-empty stdout
lines are the violations; `FileNotFoundError` and any other exception give
`(False, [message])`. -/
def check_pep8_compliance (subproc : List Str → SubprocResult) (filePath : Str) :
    (Bool × List Str) × List ToolEffect :=
  match subproc (pep8Argv filePath) with
  | .completed rc out _ =>
    if rc = 0 then ((true, []), [.subprocessRun (pep8Argv filePath)])
    else
      (((false, (pySplit ("\n".toList) out).filter (fun l => !l.isEmpty))),
       [.subprocessRun (pep8Argv filePath)])
  | .fileNotFound =>
    ((false, ["pycodestyle not installed or not in PATH".toList]),
     [.subprocessRun (pep8Argv filePath)])
  | .raised m =>
    ((false, [("Error checking PEP 8 compliance: ".toList) ++ m]),
     [.subprocessRun (pep8Argv filePath)])

/-- The argv of the isort subprocess (line 594). -/
def isortArgv (filePath : Str) : List Str :=
  ["isort".toList, "--profile".toList, "black".toList, filePath]

/-- `optimize_imports` (lines 579-611): run isort as a subprocess; on return
code 0 read the rewritten file back (`fileAfter` is that read's outcome),
otherwise report the captured stderr; `FileNotFoundError` and any other
exception give `(False, message)`. -/
def optimize_imports (subproc : List Str → SubprocResult)
    (fileAfter : Except Str Str) (filePath : Str) : (Bool × Str) × List ToolEffect :=
  match subproc (isortArgv filePath) with
  | .completed rc _ err =>
    if rc = 0 then
      match fileAfter with
      | .ok content => ((true, content), [.subprocessRun (isortArgv filePath)])
      | .error e =>
        ((false, ("Error optimizing imports: ".toList) ++ e),
         [.subprocessRun (isortArgv filePath)])
    else
      ((false, ("Error optimizing imports: ".toList) ++ err),
       [.subprocessRun (isortArgv filePath)])
  | .fileNotFound =>
    ((false, "isort not installed or not in PATH".toList),
     [.subprocessRun (isortArgv filePath)])
  | .raised m =>
    ((false, ("Error optimizing imports: ".toList) ++ m),
     [.subprocessRun (isortArgv filePath)])

/-! ## Theorems -/

theorem occIdxs_pairwise (pat s : Str) : (occIdxs pat s).Pairwise (· < ·) :=
  List.Pairwise.filter _ (List.pairwise_lt_range _)

theorem getLast?_exists_mem {α : Type} : ∀ (l : List α), l ≠ [] → ∃ x, l.getLast? = some x ∧ x ∈ l
  | [x], _ => ⟨x, rfl, List.mem_singleton_self x⟩
  | x :: y :: t, _ => by
    obtain ⟨z, hz, hmem⟩ := getLast?_exists_mem (y :: t) (by simp)
    exact ⟨z, by simpa [List.getLast?_cons_cons] using hz, List.mem_cons_of_mem _ hmem⟩

theorem hasFencePair_iff (sec : Str) :
    hasFencePair sec = true ↔ 2 ≤ (occIdxs fenceStr sec).length := by
  unfold hasFencePair pyFind pyRfind
  have hpw := occIdxs_pairwise fenceStr sec
  rcases hl : occIdxs fenceStr sec with _ | ⟨a, _ | ⟨b, t⟩⟩
  · simp
  · simp
  · rw [hl] at hpw
    obtain ⟨z, hz, hzmem⟩ := getLast?_exists_mem (b :: t) (by simp)
    have haz : a < z := (List.pairwise_cons.mp hpw).1 z hzmem
    simp [List.getLast?_cons_cons, hz, haz]

theorem extractCode_eq (tag sec : Str) :
    extractCode tag sec = if hasFencePair sec then some (cleanCode tag sec) else none := by
  unfold extractCode hasFencePair cleanCode
  rcases pyFind fenceStr sec with _ | a <;> rcases pyRfind fenceStr sec with _ | b
  · simp
  · simp
  · simp
  · by_cases h : a < b <;> simp [h]

theorem sectionsLoop_spec (tag outDir : Str) :
    ∀ (secs : List Str) (ws : List (Str × Str)) (cr : List Str),
      sectionsLoop tag outDir secs ws cr
        = (ws ++ (secs.filter hasFencePair).map
              (fun s => (pyPathJoin outDir (sectionPath s), cleanCode tag s)),
           cr ++ (secs.filter hasFencePair).map sectionPath)
  | [], ws, cr => by simp [sectionsLoop]
  | sec :: rest, ws, cr => by
    rw [sectionsLoop, extractCode_eq]
    by_cases h : hasFencePair sec
    · simp only [h, if_pos]
      rw [sectionsLoop_spec tag outDir rest]
      simp [h, List.filter_cons]
    · simp only [h, Bool.false_eq_true, if_neg]
      rw [sectionsLoop_spec tag outDir rest]
      simp [h, List.filter_cons]

/-- C1: for every model reply, `generate_code_files` sanitizes the reply,
splits it on `"FILE: "`, discards the text before the first marker, takes each
remaining section's first line (stripped) as the file path, and exactly when
the section has a `` ``` `` fence pair at distinct positions (last occurrence
strictly after the first) writes the fence-to-fence span with every
`` ```python `` and `` ``` `` substring removed and whitespace stripped to
that path under the output directory, the returned list being exactly the
written paths in order. -/
theorem c1_generate_code_files_spec :
    (∀ (reply outDir : Str),
      parseAndWrite ("```python".toList) outDir reply
        = (((pySplit ("FILE: ".toList) (sanitize_text reply)).tail.filter hasFencePair).map
             (fun s => (pyPathJoin outDir (sectionPath s), cleanCode ("```python".toList) s)),
           ((pySplit ("FILE: ".toList) (sanitize_text reply)).tail.filter hasFencePair).map
             sectionPath))
  ∧ (∀ sec : Str, hasFencePair sec = true ↔ 2 ≤ (occIdxs fenceStr sec).length)
  ∧ (∀ (f : List Msg → Str) (req arch outDir : Str) (st : RunState),
      generate_code_files (okLLM f) req arch outDir st
        = (applyWrites
             { st with trace := st.trace
                 ++ [⟨"code", codeMsgsOf req arch, f (codeMsgsOf req arch)⟩] }
             (parseAndWrite ("```python".toList) outDir (f (codeMsgsOf req arch))).1,
           .ok (parseAndWrite ("```python".toList) outDir (f (codeMsgsOf req arch))).2)) := by
  refine ⟨fun reply outDir => ?_, hasFencePair_iff, fun f req arch outDir st => rfl⟩
  unfold parseAndWrite
  rw [sectionsLoop_spec]
  simp

theorem invokeLLM_okLLM (f : List Msg → Str) (tag : String) (msgs : List Msg) (st : RunState) :
    invokeLLM (okLLM f) tag msgs st
      = ({ st with trace := st.trace ++ [⟨tag, msgs, f msgs⟩] }, .ok (f msgs)) := rfl

theorem applyWrites_trace : ∀ (ws : List (Str × Str)) (st : RunState),
    (applyWrites st ws).trace = st.trace
  | [], _ => rfl
  | w :: ws, st => by
    rw [applyWrites] at *
    simpa [fsWrite] using applyWrites_trace ws (fsWrite st w.1 w.2)

/-- C2: with a never-raising oracle, `run_simplified_coding_system` performs
exactly five invocations, in the order requirements, architecture, code,
tests, docs, one per phase; each phase's request is built (per the `c2m...`
definitions) from the initial prompt, the output directory and the replies of
strictly earlier phases only, and the sequential model starts no phase before
the previous one has returned. -/
theorem c2_run_five_phase_sequence :
    ∀ (f : List Msg → Str) (key prompt outputDir : Str),
      (run_simplified_coding_system (some key) (okLLM f) prompt outputDir).1 = true
    ∧ (run_simplified_coding_system (some key) (okLLM f) prompt outputDir).2.trace
        = [⟨"requirements", reqMsgsOf prompt, c2r1 f prompt⟩,
           ⟨"architecture", c2m2 f prompt, c2r2 f prompt⟩,
           ⟨"code", c2m3 f prompt, c2r3 f prompt⟩,
           ⟨"tests", c2m4 f prompt outputDir, c2r4 f prompt outputDir⟩,
           ⟨"docs", c2m5 f prompt outputDir, c2r5 f prompt outputDir⟩] := by
  intro f key prompt outputDir
  simp only [run_simplified_coding_system, generate_requirements_document,
    generate_architecture_design, generate_code_files, generate_tests,
    generate_documentation, invokeLLM_okLLM, fsWrite, applyWrites_trace,
    c2r1, c2q1, c2m2, c2r2, c2q2, c2m3, c2r3, c2created, c2st3, c2m4, c2r4, c2m5, c2r5]
  constructor
  · trivial
  · simp [applyWrites_trace, fsWrite]

theorem invokeLLM_eq_error {llm : LLM} {msgs : List Msg} {e : Str}
    (h : llm msgs = .error e) (tag : String) (st : RunState) :
    invokeLLM llm tag msgs st = (st, .error e) := by
  simp [invokeLLM, h]

theorem invokeLLM_eq_ok {llm : LLM} {msgs : List Msg} {r : Str}
    (h : llm msgs = .ok r) (tag : String) (st : RunState) :
    invokeLLM llm tag msgs st
      = ({ st with trace := st.trace ++ [⟨tag, msgs, r⟩] }, .ok r) := by
  simp [invokeLLM, h]

theorem applyWrites_trace_len (ws : List (Str × Str)) (st : RunState) :
    (applyWrites st ws).trace.length = st.trace.length := by
  rw [applyWrites_trace]

theorem gen_req_error {llm prompt outDir st st' e}
    (h : generate_requirements_document llm prompt outDir st = (st', .error e)) :
    st' = st := by
  rw [generate_requirements_document] at h
  rcases hm : llm (reqMsgsOf prompt) with e' | r <;>
    rw [show invokeLLM llm "requirements" (reqMsgsOf prompt) st = _ from
      by first | exact invokeLLM_eq_error hm _ _ | exact invokeLLM_eq_ok hm _ _] at h <;>
    simp_all

theorem gen_req_ok {llm prompt outDir st st' v}
    (h : generate_requirements_document llm prompt outDir st = (st', .ok v)) :
    st'.trace.length = st.trace.length + 1 := by
  rw [generate_requirements_document] at h
  rcases hm : llm (reqMsgsOf prompt) with e' | r
  · rw [invokeLLM_eq_error hm _ _] at h; simp_all
  · rw [invokeLLM_eq_ok hm _ _] at h
    simp only [Prod.mk.injEq] at h
    rw [← h.1]
    simp [fsWrite]

theorem gen_arch_error {llm req outDir st st' e}
    (h : generate_architecture_design llm req outDir st = (st', .error e)) :
    st' = st := by
  rw [generate_architecture_design] at h
  rcases hm : llm (archMsgsOf req) with e' | r
  · rw [invokeLLM_eq_error hm _ _] at h; simp_all
  · rw [invokeLLM_eq_ok hm _ _] at h; simp_all

theorem gen_arch_ok {llm req outDir st st' v}
    (h : generate_architecture_design llm req outDir st = (st', .ok v)) :
    st'.trace.length = st.trace.length + 1 := by
  rw [generate_architecture_design] at h
  rcases hm : llm (archMsgsOf req) with e' | r
  · rw [invokeLLM_eq_error hm _ _] at h; simp_all
  · rw [invokeLLM_eq_ok hm _ _] at h
    simp only [Prod.mk.injEq] at h
    rw [← h.1]
    simp [fsWrite]

theorem gen_code_error {llm req arch outDir st st' e}
    (h : generate_code_files llm req arch outDir st = (st', .error e)) :
    st' = st := by
  rw [generate_code_files] at h
  rcases hm : llm (codeMsgsOf req arch) with e' | r
  · rw [invokeLLM_eq_error hm _ _] at h; simp_all
  · rw [invokeLLM_eq_ok hm _ _] at h; simp_all

theorem gen_code_ok {llm req arch outDir st st' v}
    (h : generate_code_files llm req arch outDir st = (st', .ok v)) :
    st'.trace.length = st.trace.length + 1 := by
  rw [generate_code_files] at h
  rcases hm : llm (codeMsgsOf req arch) with e' | r
  · rw [invokeLLM_eq_error hm _ _] at h; simp_all
  · rw [invokeLLM_eq_ok hm _ _] at h
    simp only [Prod.mk.injEq] at h
    rw [← h.1]
    simp [applyWrites_trace_len]

theorem gen_tests_error {llm req created outDir st st' e}
    (h : generate_tests llm req created outDir st = (st', .error e)) :
    st' = st := by
  rw [generate_tests] at h
  rcases hm : llm (testsMsgsOf req (filesContentStrOf st outDir created)) with e' | r
  · rw [invokeLLM_eq_error hm _ _] at h; simp_all
  · rw [invokeLLM_eq_ok hm _ _] at h; simp_all

theorem gen_tests_ok {llm req created outDir st st' v}
    (h : generate_tests llm req created outDir st = (st', .ok v)) :
    st'.trace.length = st.trace.length + 1 := by
  rw [generate_tests] at h
  rcases hm : llm (testsMsgsOf req (filesContentStrOf st outDir created)) with e' | r
  · rw [invokeLLM_eq_error hm _ _] at h; simp_all
  · rw [invokeLLM_eq_ok hm _ _] at h
    simp only [Prod.mk.injEq] at h
    rw [← h.1]
    simp [applyWrites_trace_len]

theorem gen_docs_error {llm req arch created outDir st st' e}
    (h : generate_documentation llm req arch created outDir st = (st', .error e)) :
    st' = st := by
  rw [generate_documentation] at h
  rcases hm : llm (docsMsgsOf req arch (pyJoinSep ("\n".toList) created)) with e' | r
  · rw [invokeLLM_eq_error hm _ _] at h; simp_all
  · rw [invokeLLM_eq_ok hm _ _] at h; simp_all

theorem gen_docs_ok {llm req arch created outDir st st' v}
    (h : generate_documentation llm req arch created outDir st = (st', .ok v)) :
    st'.trace.length = st.trace.length + 1 := by
  rw [generate_documentation] at h
  rcases hm : llm (docsMsgsOf req arch (pyJoinSep ("\n".toList) created)) with e' | r
  · rw [invokeLLM_eq_error hm _ _] at h; simp_all
  · rw [invokeLLM_eq_ok hm _ _] at h
    simp only [Prod.mk.injEq] at h
    rw [← h.1]
    simp [applyWrites_trace_len]

/-- C10: `run_simplified_coding_system` always returns a boolean — `true`
exactly when all five phases completed (five invocations in the trace),
`false` when the agent cannot be created or any phase raises — and the CLI
maps that boolean to exit code 0 exactly on `true`. -/
theorem c10_run_returns_bool_cli_exit :
    (∀ (apiKey : Option Str) (llm : LLM) (prompt outputDir : Str),
      (run_simplified_coding_system apiKey llm prompt outputDir).1 = true
        ↔ (run_simplified_coding_system apiKey llm prompt outputDir).2.trace.length = 5)
  ∧ (∀ b : Bool, cliExitCode b = 0 ↔ b = true) := by
  constructor
  · intro apiKey llm prompt outputDir
    rcases apiKey with _ | key
    · simp [run_simplified_coding_system]
    rcases e1 : generate_requirements_document llm prompt outputDir ⟨[], []⟩
      with ⟨st1, _ | req⟩
    · have h1 := gen_req_error e1
      subst h1
      simp [run_simplified_coding_system, e1]
    have h1 := gen_req_ok e1
    have h1' : st1.trace.length = 1 := by simpa using h1
    rcases e2 : generate_architecture_design llm req outputDir st1 with ⟨st2, _ | arch⟩
    · have h2 := gen_arch_error e2
      subst h2
      simp [run_simplified_coding_system, e1, e2, h1']
    have h2 := gen_arch_ok e2
    rcases e3 : generate_code_files llm req arch outputDir st2 with ⟨st3, _ | created⟩
    · have h3 := gen_code_error e3
      subst h3
      simp [run_simplified_coding_system, e1, e2, e3]
      omega
    have h3 := gen_code_ok e3
    rcases e4 : generate_tests llm req created outputDir st3 with ⟨st4, _ | tests⟩
    · have h4 := gen_tests_error e4
      subst h4
      simp [run_simplified_coding_system, e1, e2, e3, e4]
      omega
    have h4 := gen_tests_ok e4
    rcases e5 : generate_documentation llm req arch created outputDir st4
      with ⟨st5, _ | docs⟩
    · have h5 := gen_docs_error e5
      subst h5
      simp [run_simplified_coding_system, e1, e2, e3, e4, e5]
      omega
    have h5 := gen_docs_ok e5
    simp [run_simplified_coding_system, e1, e2, e3, e4, e5]
    omega
  · intro b
    cases b <;> simp [cliExitCode]

/-- C4: one step of the polling monitor sets progress to
`int((i / 6) * 100)` when the current phase is the `i`-th entry of the
six-name list (hence never above 83), leaves progress unchanged for any other
phase name — in particular for `"starting"` and `"complete"`, the only values
the generation thread assigns — and can only show 100 when progress was
already set to 100 directly. -/
theorem c4_progress_monitor_spec :
    (∀ (i : Fin monitorPhases.length) (p : Nat),
        progressMonitorStep (monitorPhases.get i) p = i.val * 100 / 6
      ∧ i.val * 100 / 6 ≤ 83)
  ∧ (∀ (s : String) (p : Nat),
      monitorPhases.contains s = false → progressMonitorStep s p = p)
  ∧ monitorPhases.contains ("starting") = false
  ∧ monitorPhases.contains ("complete") = false
  ∧ (∀ (s : String) (p : Nat), progressMonitorStep s p = 100 → p = 100) := by
  refine ⟨?_, ?_, by decide, by decide, ?_⟩
  · intro i p
    fin_cases i <;> exact ⟨rfl, by norm_num⟩
  · intro s p h
    rw [progressMonitorStep, if_neg (by rw [h]; simp)]
  · intro s p h
    rw [progressMonitorStep] at h
    by_cases hc : monitorPhases.contains s
    · rw [if_pos hc] at h
      have hm : s ∈ monitorPhases := by
        simpa [List.contains] using hc
      have hlt : monitorPhases.indexOf s < monitorPhases.length :=
        List.indexOf_lt_length.mpr hm
      rw [show monitorPhases.length = 6 from rfl] at hlt
      omega
    · rwa [if_neg hc] at h

/-- C3: the name `run_coding_system` that `web/app.py` imports is not among
the module-level names of `ai_coding_system`, so the web-app module fails to
load with an `ImportError`; the CLI's import `run_simplified_coding_system`
does exist.  This contradicts the claim that the web form loads and forwards
the prompt to the coding system: the code's import is a slip (the entry point
was renamed), hence a code bug. -/
theorem c3_web_import_missing :
    aiCodingSystemModuleNames.contains webAppCodingSystemImport = false
  ∧ aiCodingSystemModuleNames.contains cliCodingSystemImport = true := by
  decide

/-- C5 counterexample: the formatter and the linter perform their work with
no subprocess launch at all — `format_python_code` calls `black.format_str`
and `run_pylint` calls `pylint.lint.Run`, both in process — refuting the
claim that each of the three wrappers invokes its tool as a subprocess. -/
theorem c5_formatter_no_subprocess_counterexample :
    ((format_python_code (fun _ _ => .ok ("x = 1\n".toList)) ("x=1".toList) 88).2.any
        isSubprocessEffect) = false
  ∧ ((run_pylint true (fun _ => .ok ("rated at 10.00/10".toList)) (fun _ => 10)
        ("a.py".toList)).2.any isSubprocessEffect) = false := by
  decide

/-- C5 amended: the import sorter (`optimize_imports`) and the PEP 8
checker (`check_pep8_compliance`) invoke their tools as subprocesses with the
argv recorded here; the formatter and the linter call the black and pylint
libraries in process and launch no subprocess. -/
theorem c5_amended_subprocess_usage :
    (∀ (sp : List Str → SubprocResult) (fa : Except Str Str) (p : Str),
      (optimize_imports sp fa p).2 = [.subprocessRun (isortArgv p)])
  ∧ (∀ (sp : List Str → SubprocResult) (p : Str),
      (check_pep8_compliance sp p).2 = [.subprocessRun (pep8Argv p)])
  ∧ (∀ (bo : Nat → Str → Except Str Str) (c : Str) (l : Nat),
      (format_python_code bo c l).2 = [.libraryCall ("black.format_str")])
  ∧ (∀ (po : Str → Except Str Str) (so : Str → Rat) (p : Str),
      (run_pylint true po so p).2 = [.libraryCall ("pylint.lint.Run")])
  ∧ (∀ (po : Str → Except Str Str) (so : Str → Rat) (p : Str),
      (run_pylint false po so p).2 = []) := by
  refine ⟨fun sp fa p => ?_, fun sp p => ?_, fun bo c l => ?_,
    fun po so p => ?_, fun po so p => rfl⟩
  · rcases h : sp (isortArgv p) with ⟨rc, out, err⟩ | _ | m
    · rcases fa with e | c <;> by_cases hrc : rc = 0 <;>
        simp [optimize_imports, h, hrc]
    · simp [optimize_imports, h]
    · simp [optimize_imports, h]
  · rcases h : sp (pep8Argv p) with ⟨rc, out, err⟩ | _ | m
    · by_cases hrc : rc = 0 <;> simp [check_pep8_compliance, h, hrc]
    · simp [check_pep8_compliance, h]
    · simp [check_pep8_compliance, h]
  · rcases h : bo l c with e | r <;> simp [format_python_code, h]
  · rcases h : po p with e | r <;> simp [run_pylint, h]

/-- C6: the wrappers are best-effort — `format_python_code` returns its
input unchanged when Black raises, `run_pylint` returns
`("Pylint not available", 0.0)` without pylint and an error message with
score 0.0 when linting raises, `check_pep8_compliance` returns
`(False, [message])` when pycodestyle is missing, and `optimize_imports`
returns `(False, message)` when isort is missing or fails (non-zero exit or a
raised exception); in the model every outcome yields a return value, never a
propagated exception. -/
theorem c6_wrappers_error_handling :
    (∀ (bo : Nat → Str → Except Str Str) (c : Str) (l : Nat) (e : Str),
      bo l c = .error e → (format_python_code bo c l).1 = c)
  ∧ (∀ (po : Str → Except Str Str) (so : Str → Rat) (p : Str),
      (run_pylint false po so p).1 = ("Pylint not available".toList, 0))
  ∧ (∀ (po : Str → Except Str Str) (so : Str → Rat) (p e : Str),
      po p = .error e →
        (run_pylint true po so p).1 = (("Error running Pylint: ".toList) ++ e, 0))
  ∧ (∀ (sp : List Str → SubprocResult) (p : Str),
      sp (pep8Argv p) = .fileNotFound →
        (check_pep8_compliance sp p).1
          = (false, ["pycodestyle not installed or not in PATH".toList]))
  ∧ (∀ (sp : List Str → SubprocResult) (fa : Except Str Str) (p : Str),
      sp (isortArgv p) = .fileNotFound →
        (optimize_imports sp fa p).1 = (false, "isort not installed or not in PATH".toList))
  ∧ (∀ (sp : List Str → SubprocResult) (fa : Except Str Str) (p : Str)
        (rc : Int) (out err : Str),
      sp (isortArgv p) = .completed rc out err → rc ≠ 0 →
        (optimize_imports sp fa p).1
          = (false, ("Error optimizing imports: ".toList) ++ err))
  ∧ (∀ (sp : List Str → SubprocResult) (p e : Str) (rc : Int) (out err : Str),
      sp (isortArgv p) = .completed rc out err → rc = 0 →
        (optimize_imports sp (.error e) p).1
          = (false, ("Error optimizing imports: ".toList) ++ e)) := by
  refine ⟨fun bo c l e h => ?_, fun po so p => rfl, fun po so p e h => ?_,
    fun sp p h => ?_, fun sp fa p h => ?_, fun sp fa p rc out err h hrc => ?_,
    fun sp p e rc out err h hrc => ?_⟩
  · simp [format_python_code, h]
  · simp [run_pylint, h]
  · simp [check_pep8_compliance, h]
  · simp [optimize_imports, h]
  · simp [optimize_imports, h, hrc]
  · simp [optimize_imports, h, hrc]

/-- C6 witness: the failure paths evaluated at concrete oracles. -/
theorem c6_wrappers_error_handling_witness :
    (format_python_code (fun _ _ => .error ("boom".toList)) ("x=1".toList) 88).1
      = ("x=1".toList)
  ∧ (run_pylint false (fun _ => .ok []) (fun _ => 0) ("a.py".toList)).1
      = ("Pylint not available".toList, 0)
  ∧ (run_pylint true (fun _ => .error ("crash".toList)) (fun _ => 0) ("a.py".toList)).1
      = (("Error running Pylint: ".toList) ++ ("crash".toList), 0)
  ∧ (check_pep8_compliance (fun _ => .fileNotFound) ("a.py".toList)).1
      = (false, ["pycodestyle not installed or not in PATH".toList])
  ∧ (optimize_imports (fun _ => .fileNotFound) (.ok []) ("a.py".toList)).1
      = (false, "isort not installed or not in PATH".toList)
  ∧ (optimize_imports (fun _ => .completed 2 [] ("err".toList)) (.ok []) ("a.py".toList)).1
      = (false, ("Error optimizing imports: ".toList) ++ ("err".toList)) :=
  ⟨c6_wrappers_error_handling.1 _ _ _ _ rfl,
   c6_wrappers_error_handling.2.1 _ _ _,
   c6_wrappers_error_handling.2.2.1 _ _ _ _ rfl,
   c6_wrappers_error_handling.2.2.2.1 _ _ rfl,
   c6_wrappers_error_handling.2.2.2.2.1 _ _ _ rfl,
   c6_wrappers_error_handling.2.2.2.2.2.1 _ _ _ _ _ _ rfl (by decide)⟩

/-- C7: `safe_write_file` writes the content UTF-8 on success; exactly on a
`UnicodeEncodeError` it instead writes `sanitize_text(content)` ASCII-encoded
with replacement; any other failure of either attempt becomes an `Exception`
whose message starts with `"Failed to write file "` and the path; and a
successful call writes exactly one file. -/
theorem c7_safe_write_file_spec :
    ∀ (u a : WriteOutcome) (p c : Str),
      (u = .success → safe_write_file u a p c = .ok [(p, c)])
    ∧ (∀ m, u = .unicodeEncodeError m → a = .success →
        safe_write_file u a p c = .ok [(p, pyAsciiReplaceEncode (sanitize_text c))])
    ∧ (∀ m m', u = .unicodeEncodeError m →
        (a = .unicodeEncodeError m' ∨ a = .otherError m') →
        safe_write_file u a p c = .error (failMsg p m'))
    ∧ (∀ m, u = .otherError m → safe_write_file u a p c = .error (failMsg p m))
    ∧ (∀ e, safe_write_file u a p c = .error e →
        (("Failed to write file ".toList) ++ p).isPrefixOf e = true)
    ∧ (∀ ws, safe_write_file u a p c = .ok ws → ws.length = 1) := by
  intro u a p c
  have hpre : ∀ m : Str,
      (("Failed to write file ".toList) ++ p).isPrefixOf (failMsg p m) = true := by
    intro m
    rw [List.isPrefixOf_iff_prefix]
    rw [failMsg, show ("Failed to write file ".toList) ++ p ++ (": ".toList) ++ m
      = (("Failed to write file ".toList) ++ p) ++ ((": ".toList) ++ m) by
        simp [List.append_assoc]]
    exact List.prefix_append _ _
  refine ⟨?_, ?_, ?_, ?_, ?_, ?_⟩
  · rintro rfl; rfl
  · rintro m rfl rfl; rfl
  · rintro m m' rfl (rfl | rfl) <;> rfl
  · rintro m rfl; rfl
  · intro e he
    rcases u with _ | m | m
    · simp [safe_write_file] at he
    · rcases a with _ | m' | m'
      · simp [safe_write_file] at he
      · simp [safe_write_file] at he
        rw [← he]; exact hpre _
      · simp [safe_write_file] at he
        rw [← he]; exact hpre _
    · simp [safe_write_file] at he
      rw [← he]; exact hpre _
  · intro ws hw
    rcases u with _ | m | m
    · simp [safe_write_file] at hw; simp [← hw]
    · rcases a with _ | m' | m'
      · simp [safe_write_file] at hw
        simp [← hw]
      · simp [safe_write_file] at hw
      · simp [safe_write_file] at hw
    · simp [safe_write_file] at hw

/-- C7 witness: the three outcomes evaluated at concrete arguments. -/
theorem c7_safe_write_file_witness :
    safe_write_file .success .success ("a.py".toList) ("x=1".toList)
      = .ok [(("a.py".toList), ("x=1".toList))]
  ∧ safe_write_file (.unicodeEncodeError []) .success ("a.py".toList) ("x“".toList)
      = .ok [(("a.py".toList), pyAsciiReplaceEncode (sanitize_text ("x“".toList)))]
  ∧ safe_write_file (.otherError ("disk full".toList)) .success ("a.py".toList) []
      = .error (failMsg ("a.py".toList) ("disk full".toList)) :=
  ⟨(c7_safe_write_file_spec .success .success _ _).1 rfl,
   (c7_safe_write_file_spec _ .success _ _).2.1 [] rfl rfl,
   (c7_safe_write_file_spec _ .success _ _).2.2.2.1 _ rfl⟩

/-- C8: contrary to the claim, the curly quotes are not mapped to ASCII
quotes — each becomes `?` — because the source's quote entries parse as an
ASCII-identity entry and an accidental triple-quoted key (see
`sanitizeReplacements`); the dash, ellipsis and bullet replacements do work
as claimed.  The code contradicts its own docstring (replace problematic
characters with their ASCII equivalents), hence a code bug. -/
theorem c8_curly_quotes_not_mapped :
    sanitize_text ("“".toList) = ("?".toList)
  ∧ sanitize_text ("”".toList) = ("?".toList)
  ∧ sanitize_text ("‘".toList) = ("?".toList)
  ∧ sanitize_text ("’".toList) = ("?".toList)
  ∧ ("?".toList) ≠ ("\"".toList)
  ∧ sanitize_text ("—".toList) = ("-".toList)
  ∧ sanitize_text ("–".toList) = ("-".toList)
  ∧ sanitize_text ("…".toList) = ("...".toList)
  ∧ sanitize_text ("•".toList) = ("*".toList) := by
  decide

/-- C9: `sanitize_text` is not idempotent and not the identity on pure
ASCII input free of the listed typographic characters: the accidental
replacement key (`sanitizeOddKey`) is itself pure ASCII, sanitizes to a lone
apostrophe, and a first pass over the exhibited 29-character ASCII input
produces exactly that key, so a second pass changes the result again.  The
failure comes from the same mangled replacement table as C8, hence a code
bug. -/
theorem c9_sanitize_not_idempotent :
    sanitize_text (sanitize_text ((": \"".toList) ++ sanitizeOddKey ++ ("\",\n        ".toList)))
      ≠ sanitize_text ((": \"".toList) ++ sanitizeOddKey ++ ("\",\n        ".toList))
  ∧ sanitize_text ((": \"".toList) ++ sanitizeOddKey ++ ("\",\n        ".toList))
      = sanitizeOddKey
  ∧ sanitize_text sanitizeOddKey = [apos]
  ∧ sanitizeOddKey.all (fun c => c.toNat < 128) = true
  ∧ ['“', '”', '‘', '’', '—', '–', '…', '•'].all
      (fun t => !sanitizeOddKey.contains t) = true := by
  decide

/-- C4 witness: the monitor leaves progress untouched on `"starting"` and
`"complete"` and reports 50 during `"testing"`. -/
theorem c4_progress_monitor_witness :
    progressMonitorStep ("starting") 42 = 42
  ∧ progressMonitorStep ("testing") 7 = 50
  ∧ progressMonitorStep ("complete") 100 = 100 := by
  refine ⟨c4_progress_monitor_spec.2.1 ("starting") 42 (by decide), ?_,
    c4_progress_monitor_spec.2.1 ("complete") 100 (by decide)⟩
  have h := (c4_progress_monitor_spec.1 ⟨3, by decide⟩ 7).1
  exact h
